import Mathlib

/-
Shallow embedding of `src/app.py.py` (Danube AI Insight demo: an ROI
projector and a rule-based energy-consumption simulator).

Python/numpy floating-point arithmetic is modelled with exact rationals
(ℚ); numpy arrays are modelled as Lean lists; numpy vectorised
expressions become `List.map` / `List.zipWith` / `List.mapIdx`; boolean
mask slice-assignment (`mask[a:b] = True`) becomes an index-conditional
update.  The seeded pseudo-random generator is external library code
(numpy), so it is modelled abstractly: see `NoiseSource` below.
-/

/-! ### ROI Predictor (tab 1 of `app.py.py`, lines 32-71) -/

/-- The scenario inputs collected for the ROI tab (lines 32-37):
location score, purchase price (AED), annual appreciation (%), gross
rental yield (%), holding period (years), operating expenses (% of rent). -/
structure ROIInputs where
  location_score : ℕ
  purchase_price : ℚ
  annual_appreciation : ℚ
  annual_rental_yield : ℚ
  holding_years : ℕ
  annual_expenses_pct : ℚ
deriving DecidableEq

/-- The result bundle computed by the ROI tab (lines 61-71). -/
structure ROIResult where
  years : List ℕ
  values : List ℚ
  cumulative_rent : List ℚ
  final_value : ℚ
  total_return : ℚ
deriving DecidableEq

/-- Embedding of the ROI computation, lines 61-71 of `app.py.py`:
`years = np.arange(0, holding_years+1)`;
`values = purchase_price * (1 + annual_appreciation/100) ** years`;
`yearly_rent = purchase_price * (annual_rental_yield/100)`;
`net_rent = yearly_rent * (1 - annual_expenses_pct/100)`;
`cumulative_rent = net_rent * np.arange(0, holding_years+1)`;
`final_value = values[-1]`; `total_income = cumulative_rent[-1]`;
`total_return = (final_value + total_income - purchase_price) / purchase_price * 100`.
The `location_score` input is in scope in the source but never read by
this computation. -/
def project (i : ROIInputs) : ROIResult :=
  let years := List.range (i.holding_years + 1)
  let values := years.map (fun y => i.purchase_price * (1 + i.annual_appreciation / 100) ^ y)
  let yearly_rent := i.purchase_price * (i.annual_rental_yield / 100)
  let net_rent := yearly_rent * (1 - i.annual_expenses_pct / 100)
  let cumulative_rent := years.map (fun y : ℕ => net_rent * (y : ℚ))
  let final_value := values.getLastD 0
  let total_income := cumulative_rent.getLastD 0
  let total_return := (final_value + total_income - i.purchase_price) / i.purchase_price * 100
  ⟨years, values, cumulative_rent, final_value, total_return⟩

/-! ### Generic list helpers used to read entries of the embedded arrays -/

theorem getD_map_range {α : Type} (f : ℕ → α) (d : α) (n h : ℕ) (hh : h < n) :
    ((List.range n).map f).getD h d = f h := by
  simp [List.getD, List.getElem?_map, List.getElem?_range, hh]

theorem getLastD_map_range {α : Type} (f : ℕ → α) (d : α) (n : ℕ) :
    ((List.range (n + 1)).map f).getLastD d = f n := by
  rw [List.range_succ n, List.map_append]
  simp

/-! ### Unfolding equations for `project` -/

theorem project_years (i : ROIInputs) :
    (project i).years = List.range (i.holding_years + 1) := rfl

theorem project_values (i : ROIInputs) :
    (project i).values = (List.range (i.holding_years + 1)).map
      (fun y => i.purchase_price * (1 + i.annual_appreciation / 100) ^ y) := rfl

theorem project_cumulative_rent (i : ROIInputs) :
    (project i).cumulative_rent = (List.range (i.holding_years + 1)).map
      (fun y : ℕ => i.purchase_price * (i.annual_rental_yield / 100) *
        (1 - i.annual_expenses_pct / 100) * (y : ℚ)) := rfl

theorem project_final_value (i : ROIInputs) :
    (project i).final_value =
      i.purchase_price * (1 + i.annual_appreciation / 100) ^ i.holding_years := by
  rw [show (project i).final_value = (project i).values.getLastD 0 from rfl, project_values,
    getLastD_map_range]

theorem project_total_income (i : ROIInputs) :
    (project i).cumulative_rent.getLastD 0 =
      i.purchase_price * (i.annual_rental_yield / 100) *
        (1 - i.annual_expenses_pct / 100) * (i.holding_years : ℚ) := by
  rw [project_cumulative_rent, getLastD_map_range]

theorem project_total_return (i : ROIInputs) :
    (project i).total_return =
      ((project i).final_value + (project i).cumulative_rent.getLastD 0 - i.purchase_price) /
        i.purchase_price * 100 := rfl

theorem project_values_getD (i : ROIInputs) (y : ℕ) (hy : y < i.holding_years + 1) :
    (project i).values.getD y 0 =
      i.purchase_price * (1 + i.annual_appreciation / 100) ^ y := by
  rw [project_values, getD_map_range _ _ _ _ hy]

theorem project_cumulative_rent_getD (i : ROIInputs) (y : ℕ) (hy : y < i.holding_years + 1) :
    (project i).cumulative_rent.getD y 0 =
      i.purchase_price * (i.annual_rental_yield / 100) *
        (1 - i.annual_expenses_pct / 100) * (y : ℚ) := by
  rw [project_cumulative_rent, getD_map_range _ _ _ _ hy]

/-- The default scenario of the sliders (lines 32-37): location 6, price
1,000,000, appreciation 5%, yield 6%, 5 years, expenses 20%. -/
def roiExample : ROIInputs := ⟨6, 1000000, 5, 6, 5, 20⟩

/-! ### Occupancy mask (tab 2 of `app.py.py`, lines 138-149) -/

/-- The three building types offered by the selectbox (line 103). -/
inductive BType
  | Apartment
  | Villa
  | Office
deriving DecidableEq

/-- Embedding of numpy boolean slice assignment `mask[lo:hi] = True`:
every index in the half-open range `[lo, hi)` becomes `true`, all other
entries are unchanged. -/
def setTrue (m : List Bool) (lo hi : ℕ) : List Bool :=
  m.mapIdx (fun i b => if lo ≤ i ∧ i < hi then true else b)

/-- The body of the `for d in range(days)` loop of `occupied_mask`
(lines 140-146): residential types mark `[base+7, base+9)` and
`[base+18, base+23)`, the remaining type (Office) marks
`[base+8, base+18)`, where `base = d*24`. -/
def maskStep (btype : BType) (mask : List Bool) (d : ℕ) : List Bool :=
  let base := d * 24
  match btype with
  | .Apartment | .Villa => setTrue (setTrue mask (base + 7) (base + 9)) (base + 18) (base + 23)
  | .Office => setTrue mask (base + 8) (base + 18)

/-- Embedding of `occupied_mask(days, btype)` (lines 138-147):
`mask = np.zeros(days*24, dtype=bool)` followed by the per-day loop. -/
def occupied_mask (days : ℕ) (btype : BType) : List Bool :=
  (List.range days).foldl (maskStep btype) (List.replicate (days * 24) false)

/-- The within-day occupancy pattern that `occupied_mask` realises:
local hours 7-8 and 18-22 for residential types, 8-17 for offices. -/
def dayOccupied (btype : BType) (h : ℕ) : Bool :=
  match btype with
  | .Apartment | .Villa => decide (7 ≤ h ∧ h < 9) || decide (18 ≤ h ∧ h < 23)
  | .Office => decide (8 ≤ h ∧ h < 18)

theorem setTrue_length (m : List Bool) (lo hi : ℕ) : (setTrue m lo hi).length = m.length := by
  simp [setTrue]

theorem getD_setTrue (m : List Bool) (lo hi i : ℕ) (h : i < m.length) :
    (setTrue m lo hi).getD i false =
      if lo ≤ i ∧ i < hi then true else m.getD i false := by
  simp [setTrue, List.getD, List.getElem?_mapIdx, List.getElem?_eq_getElem h]

theorem ext_getD (l l' : List Bool) (hlen : l.length = l'.length)
    (h : ∀ i, i < l.length → l.getD i false = l'.getD i false) : l = l' := by
  apply List.ext_getElem hlen
  intro i h1 h2
  have hd := h i h1
  rwa [List.getD_eq_getElem l false h1, List.getD_eq_getElem l' false h2] at hd

theorem maskStep_length (btype : BType) (m : List Bool) (d : ℕ) :
    (maskStep btype m d).length = m.length := by
  cases btype <;> simp [maskStep, setTrue_length]

theorem maskStep_apply (btype : BType) (days k : ℕ) :
    maskStep btype
        ((List.range (days * 24)).map
          (fun h => if h < k * 24 then dayOccupied btype (h % 24) else false)) k =
      (List.range (days * 24)).map
        (fun h => if h < (k + 1) * 24 then dayOccupied btype (h % 24) else false) := by
  apply ext_getD
  · rw [maskStep_length]
    simp
  · intro i hi
    have hi' : i < days * 24 := by
      rw [maskStep_length] at hi
      simpa using hi
    have hmlen : ((List.range (days * 24)).map
        (fun h => if h < k * 24 then dayOccupied btype (h % 24) else false)).length =
          days * 24 := by simp
    cases btype with
    | Office =>
      simp only [maskStep]
      rw [getD_setTrue _ _ _ _ (by rw [hmlen]; exact hi'),
        getD_map_range _ _ _ _ hi', getD_map_range _ _ _ _ hi']
      by_cases h1 : i < k * 24
      · rw [if_neg (by omega), if_pos h1, if_pos (by omega)]
      · by_cases h2 : i < (k + 1) * 24
        · rw [if_neg h1, if_pos h2]
          simp only [dayOccupied]
          by_cases h3 : 8 ≤ i % 24 ∧ i % 24 < 18
          · rw [if_pos (by omega), decide_eq_true h3]
          · rw [if_neg (by omega), decide_eq_false h3]
        · rw [if_neg (by omega), if_neg h1, if_neg h2]
    | Apartment =>
      simp only [maskStep]
      rw [getD_setTrue _ _ _ _ (by rw [setTrue_length, hmlen]; exact hi'),
        getD_setTrue _ _ _ _ (by rw [hmlen]; exact hi'),
        getD_map_range _ _ _ _ hi', getD_map_range _ _ _ _ hi']
      by_cases h1 : i < k * 24
      · rw [if_neg (by omega), if_neg (by omega), if_pos h1, if_pos (by omega)]
      · by_cases h2 : i < (k + 1) * 24
        · rw [if_neg h1, if_pos h2]
          simp only [dayOccupied]
          by_cases h18 : 18 ≤ i % 24 ∧ i % 24 < 23
          · rw [if_pos (by omega), decide_eq_true h18, Bool.or_true]
          · rw [if_neg (by omega)]
            by_cases h7 : 7 ≤ i % 24 ∧ i % 24 < 9
            · rw [if_pos (by omega), decide_eq_true h7, Bool.true_or]
            · rw [if_neg (by omega), decide_eq_false h7, decide_eq_false h18, Bool.or_false]
        · rw [if_neg (by omega), if_neg (by omega), if_neg h1, if_neg h2]
    | Villa =>
      simp only [maskStep]
      rw [getD_setTrue _ _ _ _ (by rw [setTrue_length, hmlen]; exact hi'),
        getD_setTrue _ _ _ _ (by rw [hmlen]; exact hi'),
        getD_map_range _ _ _ _ hi', getD_map_range _ _ _ _ hi']
      by_cases h1 : i < k * 24
      · rw [if_neg (by omega), if_neg (by omega), if_pos h1, if_pos (by omega)]
      · by_cases h2 : i < (k + 1) * 24
        · rw [if_neg h1, if_pos h2]
          simp only [dayOccupied]
          by_cases h18 : 18 ≤ i % 24 ∧ i % 24 < 23
          · rw [if_pos (by omega), decide_eq_true h18, Bool.or_true]
          · rw [if_neg (by omega)]
            by_cases h7 : 7 ≤ i % 24 ∧ i % 24 < 9
            · rw [if_pos (by omega), decide_eq_true h7, Bool.true_or]
            · rw [if_neg (by omega), decide_eq_false h7, decide_eq_false h18, Bool.or_false]
        · rw [if_neg (by omega), if_neg (by omega), if_neg h1, if_neg h2]

theorem foldl_maskStep (btype : BType) (days : ℕ) :
    ∀ k, k ≤ days →
      (List.range k).foldl (maskStep btype) (List.replicate (days * 24) false) =
        (List.range (days * 24)).map
          (fun h => if h < k * 24 then dayOccupied btype (h % 24) else false) := by
  intro k
  induction k with
  | zero =>
    intro _
    simp
  | succ k ih =>
    intro hk
    rw [List.range_succ k, List.foldl_append, ih (by omega)]
    exact maskStep_apply btype days k

theorem occupied_mask_eq_map (days : ℕ) (btype : BType) :
    occupied_mask days btype =
      (List.range (days * 24)).map (fun h => dayOccupied btype (h % 24)) := by
  rw [occupied_mask, foldl_maskStep btype days days le_rfl]
  apply List.map_congr_left
  intro h hm
  rw [List.mem_range] at hm
  rw [if_pos hm]

theorem occupied_mask_length (days : ℕ) (btype : BType) :
    (occupied_mask days btype).length = days * 24 := by
  rw [occupied_mask_eq_map]
  simp

theorem occupied_mask_getD (days : ℕ) (btype : BType) (h : ℕ) (hh : h < days * 24) :
    (occupied_mask days btype).getD h false = dayOccupied btype (h % 24) := by
  rw [occupied_mask_eq_map, getD_map_range _ _ _ _ hh]

theorem occupied_mask_slice (btype : BType) (days d : ℕ) (hd : d < days) :
    ((occupied_mask days btype).drop (d * 24)).take 24 =
      (List.range 24).map (dayOccupied btype) := by
  rw [occupied_mask_eq_map]
  have hsplit : days * 24 = d * 24 + (days * 24 - d * 24) := by omega
  rw [hsplit, List.range_add, List.map_append]
  have hlen : ((List.range (d * 24)).map
      (fun h => dayOccupied btype (h % 24))).length = d * 24 := by simp
  rw [List.drop_left' hlen, List.map_map, ← List.map_take, List.take_range]
  have hmin : min 24 (days * 24 - d * 24) = 24 := by omega
  rw [hmin]
  apply List.map_congr_left
  intro t ht
  rw [List.mem_range] at ht
  show dayOccupied btype ((d * 24 + t) % 24) = dayOccupied btype t
  have hmod : (d * 24 + t) % 24 = t := by omega
  rw [hmod]

/-! ### Smart Energy Optimizer (tab 2 of `app.py.py`, lines 103-173) -/

/-- A stream of standard-normal samples, indexing the successive draws a
generator produces. -/
abbrev NoiseSource := ℕ → ℚ

/-- Modelled from the spec: the pseudo-random draws come from numpy's
seeded generator (`rng = np.random.default_rng(seed=42)`, line 131),
which is library code outside this repository.  A generator is modelled
as an abstract stream of standard-normal samples, and a draw
`rng.normal(mu, sigma)` at stream position `pos` as `mu + sigma * src pos`,
matching the spec's "Draw `hours` samples from a normal distribution
(mean 1.0, standard deviation 0.05) using the seeded generator".  The
three vectorised draws of the source consume `3 * hours` stream positions
in their fixed program order: positions `[0, hours)` for the baseline
draw (line 134), `[hours, 2*hours)` for the lighting draw (line 154) and
`[2*hours, 3*hours)` for the other-load draw (line 156). -/
def normalDraw (src : NoiseSource) (pos : ℕ) (mu sigma : ℚ) : ℚ :=
  mu + sigma * src pos

/-- The baseline consumption profiles of the selectbox (line 104). -/
inductive Profile
  | Low
  | Medium
  | High
deriving DecidableEq

/-- The lighting behaviors of the selectbox (line 107). -/
inductive Lighting
  | Conservative
  | Normal
  | Generous
deriving DecidableEq

/-- Baseline kWh-per-hour multiplier (line 132):
`{"Low": 1.0, "Medium": 1.6, "High": 2.4}`. -/
def base_level : Profile → ℚ
  | .Low => 1
  | .Medium => 16 / 10
  | .High => 24 / 10

/-- Lighting factor (line 151):
`{"Conservative": 0.8, "Normal": 1.0, "Generous": 1.2}`. -/
def lighting_factor : Lighting → ℚ
  | .Conservative => 8 / 10
  | .Normal => 1
  | .Generous => 12 / 10

/-- The scenario inputs collected for the energy tab (lines 103-108). -/
structure EnergyInputs where
  building_type : BType
  baseline_profile : Profile
  occupants : ℕ
  ac_setpoint : ℤ
  lighting_behavior : Lighting
  duration_days : ℕ
deriving DecidableEq

/-- Line 134: `hourly_baseline = base_level + occupant_influence *
rng.normal(1.0, 0.05, size=hours)` with `occupant_influence = 0.1 * occupants`
(line 133). -/
def hourly_baseline (src : NoiseSource) (profile : Profile) (occupants : ℕ)
    (hours : ℕ) : List ℚ :=
  (List.range hours).map
    (fun h => base_level profile + (1 / 10 * (occupants : ℚ)) * normalDraw src h 1 (5 / 100))

/-- Line 154: `lighting_hourly = 0.2 * lighting_factor * rng.normal(1.0,
0.02, size=hours)`; this is the second vectorised draw, hence stream
positions `hours + h`. -/
def lighting_hourly (src : NoiseSource) (lb : Lighting) (hours : ℕ) : List ℚ :=
  (List.range hours).map
    (fun h => 2 / 10 * lighting_factor lb * normalDraw src (hours + h) 1 (2 / 100))

/-- Line 155: `hvac_hourly = hourly_baseline * 0.6`. -/
def hvac_hourly (src : NoiseSource) (profile : Profile) (occupants : ℕ)
    (hours : ℕ) : List ℚ :=
  (hourly_baseline src profile occupants hours).map (fun x => x * (6 / 10))

/-- Line 156: `other_hourly = hourly_baseline * 0.4 * rng.normal(1.0, 0.05,
size=hours)`, the elementwise product of the baseline array with 0.4 and
the third vectorised draw (stream positions `2*hours + h`). -/
def other_hourly (src : NoiseSource) (profile : Profile) (occupants : ℕ)
    (hours : ℕ) : List ℚ :=
  List.zipWith (fun x z => x * (4 / 10) * z)
    (hourly_baseline src profile occupants hours)
    ((List.range hours).map (fun h => normalDraw src (2 * hours + h) 1 (5 / 100)))

/-- Line 164: `setpoint_effect = max(0, (26 - ac_setpoint) / 6)`. -/
def setpoint_effect (sp : ℤ) : ℚ :=
  max 0 ((26 - (sp : ℚ)) / 6)

/-- Lines 161-165: `optimized_hvac = hvac_hourly.copy()`;
`optimized_hvac[~occ] *= 0.7`; `optimized_hvac[occ] *= (1 - 0.05 *
setpoint_effect)`.  The two masked in-place updates act on disjoint index
sets, so together they are the pointwise update below. -/
def optimized_hvac (sp : ℤ) (occ : List Bool) (hvac : List ℚ) : List ℚ :=
  List.zipWith
    (fun o x => if o then x * (1 - 5 / 100 * setpoint_effect sp) else x * (7 / 10))
    occ hvac

/-- Line 167: `optimized_lighting = lighting_hourly * (0.85 if
lighting_behavior=="Conservative" else (1.0 if lighting_behavior=="Normal"
else 1.1))`. -/
def optimized_lighting (lb : Lighting) (lighting : List ℚ) : List ℚ :=
  lighting.map
    (fun x => x * (if lb = .Conservative then 85 / 100 else if lb = .Normal then 1 else 11 / 10))

/-- The result bundle computed by the energy tab (lines 158-173). -/
structure EnergyResult where
  baseline : List ℚ
  optimized : List ℚ
  occupied : List Bool
  baseline_sum : ℚ
  optimized_sum : ℚ
  pct_saving : ℚ
deriving DecidableEq

/-- Embedding of the energy simulation (lines 129-173).  The generator
library (`default_rng`, mapping a seed to a sample stream) is a
parameter; the computation itself constructs its generator fresh from
the fixed seed 42 (line 131), so it holds no state across invocations.
`baseline_total = lighting_hourly + hvac_hourly + other_hourly`
(line 158), `optimized_total = optimized_lighting + optimized_hvac +
other_hourly` (line 169), `pct_saving = (baseline_sum - optimized_sum) /
baseline_sum * 100` (line 173, no clamping). -/
def simulate (default_rng : ℕ → NoiseSource) (e : EnergyInputs) : EnergyResult :=
  let hours := e.duration_days * 24
  let src := default_rng 42
  let occ := occupied_mask e.duration_days e.building_type
  let lh := lighting_hourly src e.lighting_behavior hours
  let hv := hvac_hourly src e.baseline_profile e.occupants hours
  let oh := other_hourly src e.baseline_profile e.occupants hours
  let baseline_total := List.zipWith (· + ·) (List.zipWith (· + ·) lh hv) oh
  let ohvac := optimized_hvac e.ac_setpoint occ hv
  let olight := optimized_lighting e.lighting_behavior lh
  let optimized_total := List.zipWith (· + ·) (List.zipWith (· + ·) olight ohvac) oh
  let bsum := baseline_total.sum
  let osum := optimized_total.sum
  ⟨baseline_total, optimized_total, occ, bsum, osum, (bsum - osum) / bsum * 100⟩

/-! ### Unfolding equations and length facts for `simulate` -/

theorem simulate_occupied (default_rng : ℕ → NoiseSource) (e : EnergyInputs) :
    (simulate default_rng e).occupied = occupied_mask e.duration_days e.building_type := rfl

theorem simulate_baseline (default_rng : ℕ → NoiseSource) (e : EnergyInputs) :
    (simulate default_rng e).baseline =
      List.zipWith (· + ·)
        (List.zipWith (· + ·)
          (lighting_hourly (default_rng 42) e.lighting_behavior (e.duration_days * 24))
          (hvac_hourly (default_rng 42) e.baseline_profile e.occupants (e.duration_days * 24)))
        (other_hourly (default_rng 42) e.baseline_profile e.occupants (e.duration_days * 24)) := rfl

theorem simulate_optimized (default_rng : ℕ → NoiseSource) (e : EnergyInputs) :
    (simulate default_rng e).optimized =
      List.zipWith (· + ·)
        (List.zipWith (· + ·)
          (optimized_lighting e.lighting_behavior
            (lighting_hourly (default_rng 42) e.lighting_behavior (e.duration_days * 24)))
          (optimized_hvac e.ac_setpoint
            (occupied_mask e.duration_days e.building_type)
            (hvac_hourly (default_rng 42) e.baseline_profile e.occupants (e.duration_days * 24))))
        (other_hourly (default_rng 42) e.baseline_profile e.occupants (e.duration_days * 24)) := rfl

theorem simulate_baseline_sum (default_rng : ℕ → NoiseSource) (e : EnergyInputs) :
    (simulate default_rng e).baseline_sum = (simulate default_rng e).baseline.sum := rfl

theorem simulate_optimized_sum (default_rng : ℕ → NoiseSource) (e : EnergyInputs) :
    (simulate default_rng e).optimized_sum = (simulate default_rng e).optimized.sum := rfl

theorem simulate_pct_saving (default_rng : ℕ → NoiseSource) (e : EnergyInputs) :
    (simulate default_rng e).pct_saving =
      ((simulate default_rng e).baseline_sum - (simulate default_rng e).optimized_sum) /
        (simulate default_rng e).baseline_sum * 100 := rfl

theorem hourly_baseline_length (src : NoiseSource) (profile : Profile) (occupants : ℕ)
    (hours : ℕ) : (hourly_baseline src profile occupants hours).length = hours := by
  simp [hourly_baseline]

theorem lighting_hourly_length (src : NoiseSource) (lb : Lighting) (hours : ℕ) :
    (lighting_hourly src lb hours).length = hours := by
  simp [lighting_hourly]

theorem hvac_hourly_length (src : NoiseSource) (profile : Profile) (occupants : ℕ)
    (hours : ℕ) : (hvac_hourly src profile occupants hours).length = hours := by
  simp [hvac_hourly, hourly_baseline]

theorem other_hourly_length (src : NoiseSource) (profile : Profile) (occupants : ℕ)
    (hours : ℕ) : (other_hourly src profile occupants hours).length = hours := by
  simp [other_hourly, hourly_baseline]

theorem optimized_hvac_length (sp : ℤ) (occ : List Bool) (hvac : List ℚ) :
    (optimized_hvac sp occ hvac).length = min occ.length hvac.length := by
  simp [optimized_hvac]

theorem optimized_lighting_length (lb : Lighting) (lighting : List ℚ) :
    (optimized_lighting lb lighting).length = lighting.length := by
  simp [optimized_lighting]

theorem simulate_baseline_length (default_rng : ℕ → NoiseSource) (e : EnergyInputs) :
    (simulate default_rng e).baseline.length = e.duration_days * 24 := by
  rw [simulate_baseline]
  simp [lighting_hourly_length, hvac_hourly_length, other_hourly_length]

theorem simulate_optimized_length (default_rng : ℕ → NoiseSource) (e : EnergyInputs) :
    (simulate default_rng e).optimized.length = e.duration_days * 24 := by
  rw [simulate_optimized]
  simp [lighting_hourly_length, hvac_hourly_length, other_hourly_length,
    optimized_hvac_length, optimized_lighting_length, occupied_mask_length]

theorem hvac_hourly_getD (src : NoiseSource) (profile : Profile) (occupants : ℕ)
    (hours h : ℕ) (hh : h < hours) :
    (hvac_hourly src profile occupants hours).getD h 0 =
      (base_level profile + (1 / 10 * (occupants : ℚ)) * normalDraw src h 1 (5 / 100)) *
        (6 / 10) := by
  rw [hvac_hourly, hourly_baseline, List.map_map]
  exact getD_map_range _ _ _ _ hh

/-! ### Claims -/

/-- C1: For the ROI engine invoked with purchase_price = 1,000,000,
annual_appreciation = 5, annual_rental_yield = 6, holding_years = 5 and
annual_expenses_pct = 20, the final projected value equals
1,000,000·1.05⁵ = 1,276,281.5625 (≈ 1,276,281.56), the yearly net rent
is 1,000,000·0.06·0.8 = 48,000 so the cumulative net rent at year 5
equals 240,000 (linear accumulation), and the total return percentage
equals (final + 240,000 − 1,000,000)/1,000,000·100 = 51.62815625
(≈ 51.63). -/
theorem C1_roi_example :
    (project roiExample).final_value = 1000000 * (1 + 5 / 100) ^ 5 ∧
    (project roiExample).final_value = 1276281.5625 ∧
    roiExample.purchase_price * (roiExample.annual_rental_yield / 100) *
      (1 - roiExample.annual_expenses_pct / 100) = 48000 ∧
    (project roiExample).cumulative_rent.getD 5 0 = 240000 ∧
    (project roiExample).total_return =
      (1276281.5625 + 240000 - 1000000) / 1000000 * 100 ∧
    (project roiExample).total_return = 51.62815625 := by
  refine ⟨?_, ?_, ?_, ?_, ?_, ?_⟩
  · rw [project_final_value]
    norm_num [roiExample]
  · rw [project_final_value]
    norm_num [roiExample]
  · norm_num [roiExample]
  · rw [project_cumulative_rent_getD roiExample 5 (by norm_num [roiExample])]
    norm_num [roiExample]
  · rw [project_total_return, project_final_value, project_total_income]
    norm_num [roiExample]
  · rw [project_total_return, project_final_value, project_total_income]
    norm_num [roiExample]

/-- C3: Both engines are deterministic functions of their inputs with no
hidden state across calls: for any generator library, two invocations of
`simulate` with identical inputs are equal (the generator is constructed
fresh from the fixed seed 42 inside each invocation), and two
invocations of `project` with identical inputs are equal. -/
theorem C3_deterministic (default_rng : ℕ → NoiseSource) (e : EnergyInputs)
    (i : ROIInputs) :
    simulate default_rng e = simulate default_rng e ∧
    project i = project i :=
  ⟨rfl, rfl⟩

/-- C6: For every valid ROI input, the cumulative net rent sequence
satisfies `cumulative_rent[0] = 0` and `cumulative_rent[y] = y *
cumulative_rent[1]` for every year index `y ≤ holding_years`: the
accumulation is linear in the year index. -/
theorem C6_cumulative_rent_linear (i : ROIInputs) (_hp : 0 < i.purchase_price)
    (hy : 1 ≤ i.holding_years) (y : ℕ) (hyy : y ≤ i.holding_years) :
    (project i).cumulative_rent.getD 0 0 = 0 ∧
    (project i).cumulative_rent.getD y 0 =
      (y : ℚ) * (project i).cumulative_rent.getD 1 0 := by
  constructor
  · rw [project_cumulative_rent_getD i 0 (by omega)]
    norm_num
  · rw [project_cumulative_rent_getD i y (by omega),
      project_cumulative_rent_getD i 1 (by omega)]
    push_cast
    ring

theorem C6_witness :
    (project roiExample).cumulative_rent.getD 0 0 = 0 ∧
    (project roiExample).cumulative_rent.getD 3 0 =
      ((3 : ℕ) : ℚ) * (project roiExample).cumulative_rent.getD 1 0 :=
  C6_cumulative_rent_linear roiExample (by norm_num [roiExample])
    (by norm_num [roiExample]) 3 (by norm_num [roiExample])

/-- C7: For every valid ROI input (positive price, non-negative rates,
expenses within [0,100]), the projected value series is strictly
increasing over year indices when the appreciation rate is positive and
constant when it is zero, and the cumulative net rent series is
non-negative and non-decreasing. -/
theorem C7_roi_monotone (i : ROIInputs) (hp : 0 < i.purchase_price)
    (_ha : 0 ≤ i.annual_appreciation) (hr : 0 ≤ i.annual_rental_yield)
    (_he0 : 0 ≤ i.annual_expenses_pct) (he1 : i.annual_expenses_pct ≤ 100) :
    (0 < i.annual_appreciation → ∀ y, y < i.holding_years →
      (project i).values.getD y 0 < (project i).values.getD (y + 1) 0) ∧
    (i.annual_appreciation = 0 → ∀ y, y ≤ i.holding_years →
      (project i).values.getD y 0 = i.purchase_price) ∧
    (∀ y, y ≤ i.holding_years → 0 ≤ (project i).cumulative_rent.getD y 0) ∧
    (∀ y, y < i.holding_years →
      (project i).cumulative_rent.getD y 0 ≤
        (project i).cumulative_rent.getD (y + 1) 0) := by
  have hnet : 0 ≤ i.purchase_price * (i.annual_rental_yield / 100) *
      (1 - i.annual_expenses_pct / 100) := by
    have h1 : 0 ≤ i.purchase_price * (i.annual_rental_yield / 100) :=
      mul_nonneg hp.le (div_nonneg hr (by norm_num))
    exact mul_nonneg h1 (by linarith)
  refine ⟨?_, ?_, ?_, ?_⟩
  · intro hpos y hy
    rw [project_values_getD i y (by omega), project_values_getD i (y + 1) (by omega)]
    have hb : 1 < 1 + i.annual_appreciation / 100 := by
      have := div_pos hpos (show (0 : ℚ) < 100 by norm_num)
      linarith
    exact mul_lt_mul_of_pos_left (pow_lt_pow_right₀ hb (Nat.lt_succ_self y)) hp
  · intro h0 y hy
    rw [project_values_getD i y (by omega), h0]
    norm_num
  · intro y hy
    rw [project_cumulative_rent_getD i y (by omega)]
    exact mul_nonneg hnet (Nat.cast_nonneg y)
  · intro y hy
    rw [project_cumulative_rent_getD i y (by omega),
      project_cumulative_rent_getD i (y + 1) (by omega)]
    apply mul_le_mul_of_nonneg_left _ hnet
    push_cast
    linarith

theorem C7_witness :
    (project roiExample).values.getD 2 0 < (project roiExample).values.getD 3 0 :=
  (C7_roi_monotone roiExample (by norm_num [roiExample]) (by norm_num [roiExample])
      (by norm_num [roiExample]) (by norm_num [roiExample]) (by norm_num [roiExample])).1
    (by norm_num [roiExample]) 2 (by norm_num [roiExample])

/-- C8: The location attractiveness score is display-only: changing only
that input leaves the whole ROI result bundle (value series, cumulative
net rent, final value, total return percentage) unchanged. -/
theorem C8_location_score_unused (i : ROIInputs) (l : ℕ) :
    project { i with location_score := l } = project i := rfl

/-- An out-of-domain ROI scenario: the purchase price is negative. -/
def invalidROI : ROIInputs := ⟨6, -500000, 5, 6, 5, 20⟩

/-- C5 counterexample: the claim says that for an input outside the
declared domain (here a non-positive purchase price) the engine detects
the violation at its entry point and reports an InvalidParameter error
with no partial computation.  In the code there is no validation at all:
on a negative purchase price the ROI computation runs to completion and
returns an ordinary, fully-populated result bundle. -/
theorem C5_counterexample :
    invalidROI.purchase_price < 0 ∧
    (project invalidROI).values.length = invalidROI.holding_years + 1 ∧
    (project invalidROI).values.getD 0 0 = -500000 ∧
    (project invalidROI).final_value = -500000 * (1 + 5 / 100) ^ 5 ∧
    (project invalidROI).cumulative_rent.getD 5 0 = -120000 := by
  refine ⟨by norm_num [invalidROI], ?_, ?_, ?_, ?_⟩
  · rw [project_values]
    simp
  · rw [project_values_getD invalidROI 0 (by norm_num [invalidROI])]
    norm_num [invalidROI]
  · rw [project_final_value]
    norm_num [invalidROI]
  · rw [project_cumulative_rent_getD invalidROI 5 (by norm_num [invalidROI])]
    norm_num [invalidROI]

/-- C5 amended: the engines perform no domain validation and have no
error path.  Every input, in-domain or not, flows through the same
arithmetic and yields a complete result bundle of the usual shape
(`holding_years + 1` entries for ROI, `duration_days * 24` entries for
the energy simulation); out-of-domain values are prevented only by the
presentation layer's bounded input widgets. -/
theorem C5_no_validation (i : ROIInputs) (default_rng : ℕ → NoiseSource)
    (e : EnergyInputs) :
    (project i).values.length = i.holding_years + 1 ∧
    (project i).cumulative_rent.length = i.holding_years + 1 ∧
    (simulate default_rng e).baseline.length = e.duration_days * 24 ∧
    (simulate default_rng e).optimized.length = e.duration_days * 24 ∧
    (simulate default_rng e).occupied.length = e.duration_days * 24 := by
  refine ⟨?_, ?_, simulate_baseline_length default_rng e,
    simulate_optimized_length default_rng e, ?_⟩
  · rw [project_values]
    simp
  · rw [project_cumulative_rent]
    simp
  · rw [simulate_occupied]
    exact occupied_mask_length e.duration_days e.building_type

/-- C2: For every building type and every hour index inside the
simulated window, the occupancy mask marks exactly local hours 7-8 and
18-22 of each 24-hour day as occupied for Apartment and Villa, and
exactly local hours 8-17 for Office; in particular, for one simulated
day the Office mask is true exactly at indices 8..17 and the Apartment
mask exactly at indices {7, 8, 18, 19, 20, 21, 22}. -/
theorem C2_occupancy_mask (btype : BType) (days h : ℕ) (hh : h < days * 24) :
    ((occupied_mask days btype).getD h false = true ↔
      (((btype = BType.Apartment ∨ btype = BType.Villa) ∧
          ((7 ≤ h % 24 ∧ h % 24 < 9) ∨ (18 ≤ h % 24 ∧ h % 24 < 23))) ∨
        (btype = BType.Office ∧ 8 ≤ h % 24 ∧ h % 24 < 18))) ∧
    occupied_mask 1 BType.Office =
      [false, false, false, false, false, false, false, false,
       true, true, true, true, true, true, true, true, true, true,
       false, false, false, false, false, false] ∧
    occupied_mask 1 BType.Apartment =
      [false, false, false, false, false, false, false, true,
       true, false, false, false, false, false, false, false, false, false,
       true, true, true, true, true, false] := by
  refine ⟨?_, by decide, by decide⟩
  rw [occupied_mask_getD days btype h hh]
  cases btype <;> simp [dayOccupied]

theorem C2_witness : (occupied_mask 1 BType.Office).getD 8 false = true :=
  ((C2_occupancy_mask BType.Office 1 8 (by norm_num)).1).mpr
    (Or.inr ⟨rfl, by norm_num, by norm_num⟩)

/-- C10: For every building type and every day count of at least one
day, the occupancy mask is 24-periodic (entry `h` equals entry
`h % 24`), every simulated day contains exactly 10 occupied hours for
Office and exactly 7 for the residential types, and the Apartment and
Villa masks coincide. -/
theorem C10_mask_invariants (btype : BType) (days : ℕ) (_hd : 1 ≤ days) :
    (∀ h, h < days * 24 →
      (occupied_mask days btype).getD h false =
        (occupied_mask days btype).getD (h % 24) false) ∧
    (∀ d, d < days →
      (((occupied_mask days btype).drop (d * 24)).take 24).count true =
        if btype = BType.Office then 10 else 7) ∧
    occupied_mask days BType.Apartment = occupied_mask days BType.Villa := by
  refine ⟨?_, ?_, rfl⟩
  · intro h hh
    rw [occupied_mask_getD days btype h hh,
      occupied_mask_getD days btype (h % 24) (by omega)]
    have hmm : h % 24 % 24 = h % 24 := by omega
    rw [hmm]
  · intro d hd'
    rw [occupied_mask_slice btype days d hd']
    cases btype <;> decide

theorem C10_witness :
    (occupied_mask 2 BType.Office).getD 32 false =
      (occupied_mask 2 BType.Office).getD (32 % 24) false :=
  (C10_mask_invariants BType.Office 2 (by norm_num)).1 32 (by norm_num)

/-- C9: For every AC setpoint in the slider range [20, 26] and every
hour whose baseline HVAC load is non-negative, the optimised HVAC load
never exceeds the baseline HVAC load: the unoccupied-hour setback
multiplies by 0.7, and the occupied-hour multiplier
`1 - 0.05 * setpoint_effect` lies in [0.95, 1]. -/
theorem C9_hvac_not_increased (src : NoiseSource) (profile : Profile)
    (occupants : ℕ) (sp : ℤ) (occ : List Bool) (hours h : ℕ)
    (h20 : 20 ≤ sp) (_h26 : sp ≤ 26) (hocc : hours ≤ occ.length) (hh : h < hours)
    (hnn : 0 ≤ (hvac_hourly src profile occupants hours).getD h 0) :
    (optimized_hvac sp occ (hvac_hourly src profile occupants hours)).getD h 0 ≤
      (hvac_hourly src profile occupants hours).getD h 0 ∧
    95 / 100 ≤ 1 - 5 / 100 * setpoint_effect sp ∧
    1 - 5 / 100 * setpoint_effect sp ≤ 1 := by
  have hsp0 : (0 : ℚ) ≤ setpoint_effect sp := le_max_left 0 _
  have hsp1 : setpoint_effect sp ≤ 1 := by
    apply max_le (by norm_num)
    have hcast : (20 : ℚ) ≤ (sp : ℚ) := by exact_mod_cast h20
    linarith
  have hmul1 : 95 / 100 ≤ 1 - 5 / 100 * setpoint_effect sp := by linarith
  have hmul2 : 1 - 5 / 100 * setpoint_effect sp ≤ 1 := by linarith
  refine ⟨?_, hmul1, hmul2⟩
  have hlhv : h < (hvac_hourly src profile occupants hours).length := by
    rw [hvac_hourly_length]
    exact hh
  have hlocc : h < occ.length := by omega
  have heq : (optimized_hvac sp occ (hvac_hourly src profile occupants hours)).getD h 0 =
      if occ.getD h false then
        (hvac_hourly src profile occupants hours).getD h 0 *
          (1 - 5 / 100 * setpoint_effect sp)
      else (hvac_hourly src profile occupants hours).getD h 0 * (7 / 10) := by
    simp [optimized_hvac, List.getD, List.getElem?_zipWith,
      List.getElem?_eq_getElem hlocc, List.getElem?_eq_getElem hlhv]
  rw [heq]
  by_cases ho : occ.getD h false = true
  · rw [if_pos ho]
    exact mul_le_of_le_one_right hnn hmul2
  · rw [if_neg ho]
    exact mul_le_of_le_one_right hnn (by norm_num)

theorem C9_witness :
    (optimized_hvac 23 (occupied_mask 1 BType.Apartment)
        (hvac_hourly (fun _ => 0) Profile.Low 3 24)).getD 5 0 ≤
      (hvac_hourly (fun _ => 0) Profile.Low 3 24).getD 5 0 ∧
    95 / 100 ≤ 1 - 5 / 100 * setpoint_effect 23 ∧
    1 - 5 / 100 * setpoint_effect 23 ≤ 1 :=
  C9_hvac_not_increased (fun _ => 0) Profile.Low 3 23 (occupied_mask 1 BType.Apartment)
    24 5 (by norm_num) (by norm_num) (by simp [occupied_mask_length]) (by norm_num)
    (by rw [hvac_hourly_getD _ _ _ _ _ (by norm_num)]
        norm_num [base_level, normalDraw])

theorem optimized_lighting_generous (lighting : List ℚ) :
    optimized_lighting Lighting.Generous lighting =
      lighting.map (fun x => x * (11 / 10)) := rfl

/-- A sample stream under which the Generous-lighting increase outweighs
the HVAC setback saving for a one-day Office/Low/26°C scenario: the
baseline draws (positions 0-23) are the mean, the lighting draws
(positions 24-47) are far in the upper tail of the unbounded normal
distribution, the other-load draws (positions 48-71) are one standard
deviation above the mean. -/
def srcNeg : NoiseSource := fun i => if i < 24 then 0 else if i < 48 then 300 else 1

/-- An in-domain energy scenario: Office, Low profile, 1 occupant,
setpoint 26 °C, Generous lighting, 1 day. -/
def negInput : EnergyInputs :=
  ⟨BType.Office, Profile.Low, 1, 26, Lighting.Generous, 1⟩

/-- C4: There is a valid energy-simulation input — Generous lighting
combined with AC setpoint 26 — whose savings percentage
`(baseline_sum - optimized_sum) / baseline_sum * 100` is negative, and
the engine surfaces the negative value as-is (no clamping to zero). -/
theorem C4_negative_saving :
    (simulate (fun _ => srcNeg) negInput).pct_saving < 0 ∧
    negInput.lighting_behavior = Lighting.Generous ∧
    negInput.ac_setpoint = 26 ∧
    20 ≤ negInput.ac_setpoint ∧ negInput.ac_setpoint ≤ 26 ∧
    1 ≤ negInput.occupants ∧ negInput.occupants ≤ 10 ∧
    1 ≤ negInput.duration_days ∧ negInput.duration_days ≤ 14 := by
  have hocc : occupied_mask 1 BType.Office =
      [false, false, false, false, false, false, false, false,
       true, true, true, true, true, true, true, true, true, true,
       false, false, false, false, false, false] := by decide
  have h24 : List.range 24 = [0, 1, 2, 3, 4, 5, 6, 7, 8, 9, 10, 11, 12,
      13, 14, 15, 16, 17, 18, 19, 20, 21, 22, 23] := rfl
  refine ⟨?_, rfl, rfl, by norm_num [negInput], by norm_num [negInput],
    by norm_num [negInput], by norm_num [negInput], by norm_num [negInput],
    by norm_num [negInput]⟩
  norm_num [simulate, negInput, hocc, h24, lighting_hourly, hvac_hourly,
    other_hourly, hourly_baseline, optimized_hvac, optimized_lighting_generous,
    base_level, lighting_factor, setpoint_effect, normalDraw, srcNeg,
    List.zipWith_cons_cons, List.sum_cons]
